import Mathlib

/-!
Shallow embedding of the configuration resolver and scaffold pipeline of
the project-scaffolding command in src/init.ts.

The embedding mirrors the source:
- package manager registry (packageManagerCommands, lines 43-66),
- tool availability snapshot and manager count (lines 94-109),
- option resolution via prompts with destructuring defaults (lines 111-200),
- conflict detection over the path set (lines 202-256),
- the pipeline step sequence and the shell commands it issues (lines 258-431),
- the package.json rewrite (lines 260-279) and vscode settings (lines 368-424).

Filesystem and prompt engines are modelled at their interface boundary:
a filesystem is a map from path strings to an optional entry (regular file,
symbolic link, or directory with an entry count), and the interactive prompt
session is an answers record consulted only for prompts whose type predicate
fires, exactly as the prompts library omits skipped questions from its result.
-/

/-- Template modes of the init command (enum InitMode, lines 21-28). -/
inductive InitMode
  | none
  | game
  | place
  | model
  | plugin
  | package
deriving DecidableEq, Repr

/-- Supported package managers (enum PackageManager, lines 30-35). -/
inductive PackageManager
  | npm
  | yarn
  | yarn3
  | pnpm
deriving DecidableEq, Repr

/-- The three command strings of a package manager (lines 37-41). -/
structure PackageManagerCommands where
  init : String
  devInstall : String
  build : String
deriving DecidableEq, Repr

/-- The static registry mapping each manager to its commands (lines 43-66). -/
def packageManagerCommands : PackageManager → PackageManagerCommands
  | PackageManager.npm =>
      { init := "npm init -y", devInstall := "npm install --silent -D", build := "npm run build" }
  | PackageManager.yarn =>
      { init := "yarn init -y", devInstall := "yarn add --silent -D", build := "yarn run build" }
  | PackageManager.yarn3 =>
      { init := "yarn init -y", devInstall := "yarn add --silent -D", build := "yarn run build" }
  | PackageManager.pnpm =>
      { init := "pnpm init", devInstall := "pnpm install --silent -D", build := "pnpm run build" }

/-- Host tool availability, as probed at lines 94-98. -/
structure ToolAvailability where
  npmAvailable : Bool
  pnpmAvailable : Bool
  yarnAvailable : Bool
  gitAvailable : Bool
deriving DecidableEq, Repr

/-- packageManagerExistance object (lines 100-105): yarn and yarn3 share one probe. -/
def packageManagerExistance (t : ToolAvailability) : PackageManager → Bool
  | PackageManager.npm => t.npmAvailable
  | PackageManager.pnpm => t.pnpmAvailable
  | PackageManager.yarn => t.yarnAvailable
  | PackageManager.yarn3 => t.yarnAvailable

/-- Key order of the packageManagerExistance object literal (lines 100-105). -/
def packageManagerList : List PackageManager :=
  [PackageManager.npm, PackageManager.pnpm, PackageManager.yarn, PackageManager.yarn3]

/-- packageManagerCount (lines 107-109): number of existing entries of the object. -/
def packageManagerCount (t : ToolAvailability) : Nat :=
  (packageManagerList.filter (fun pm => packageManagerExistance t pm)).length

/-- Declaration order of enum PackageManager, as Object.entries enumerates it
for the package-manager prompt choices (lines 188-196). -/
def packageManagerEntries : List PackageManager :=
  [PackageManager.npm, PackageManager.yarn, PackageManager.yarn3, PackageManager.pnpm]

/-- The choice list of the package-manager prompt: entries filtered to the
available managers (lines 188-192). -/
def availablePackageManagerChoices (t : ToolAvailability) : List PackageManager :=
  packageManagerEntries.filter (fun pm => packageManagerExistance t pm)

/-- Raw flag bag (interface InitOptions, lines 12-19): each flag is optional. -/
structure InitOptions where
  yes : Option Bool
  git : Option Bool
  eslint : Option Bool
  prettier : Option Bool
  vscode : Option Bool
  packageManager : Option PackageManager
deriving DecidableEq, Repr

/-- The answers the interactive session would return for each question, were
that question asked. Questions whose type predicate is false never consult
this record, mirroring how the prompts library omits skipped questions. -/
structure PromptAnswers where
  template : InitMode
  git : Bool
  eslint : Bool
  prettier : Bool
  vscode : Bool
  packageManager : PackageManager
deriving DecidableEq, Repr

/-- JavaScript logical-and over an optional boolean left operand, as in the
expression argv.yes and gitAvailable at line 113: undefined stays undefined,
false short-circuits, true yields the right operand. -/
def jsAnd (a : Option Bool) (b : Bool) : Option Bool :=
  match a with
  | Option.none => Option.none
  | Option.some false => Option.some false
  | Option.some true => Option.some b

/-- Type predicate of the template question (line 128): select fires only in
mode None. -/
def templatePromptIssued (initMode : InitMode) : Bool :=
  initMode = InitMode.none

/-- Type predicate of the Configure Git question (lines 143-147). -/
def gitPromptIssued (argv : InitOptions) (t : ToolAvailability) : Bool :=
  argv.git.isNone && argv.yes.isNone && t.gitAvailable

/-- Type predicate of the Configure ESLint question (lines 153-156). -/
def eslintPromptIssued (argv : InitOptions) : Bool :=
  argv.eslint.isNone && argv.yes.isNone

/-- Type predicate of the Configure Prettier question (lines 162-165). -/
def prettierPromptIssued (argv : InitOptions) : Bool :=
  argv.prettier.isNone && argv.yes.isNone

/-- Type predicate of the Configure VSCode question (lines 170-174). -/
def vscodePromptIssued (argv : InitOptions) : Bool :=
  argv.vscode.isNone && argv.yes.isNone

/-- Type predicate of the package-manager question (lines 179-184). -/
def packageManagerPromptIssued (argv : InitOptions) (t : ToolAvailability) : Bool :=
  argv.packageManager.isNone && decide (packageManagerCount t > 1) && argv.yes.isNone

/-- Destructuring default of the git binding (line 113):
argv.git, else argv.yes and gitAvailable, else false. -/
def gitDefault (argv : InitOptions) (t : ToolAvailability) : Bool :=
  ((jsAnd argv.yes t.gitAvailable).getD false)

/-- Destructuring default of the eslint binding (line 114). -/
def eslintDefault (argv : InitOptions) : Bool :=
  argv.yes.getD false

/-- Destructuring default of the prettier binding (line 115). -/
def prettierDefault (argv : InitOptions) : Bool :=
  argv.yes.getD false

/-- Destructuring default of the vscode binding (line 116). -/
def vscodeDefault (argv : InitOptions) : Bool :=
  argv.yes.getD false

/-- Resolved template (line 112): the answer when the template question fired,
the invocation mode otherwise. -/
def resolvedTemplate (initMode : InitMode) (ans : PromptAnswers) : InitMode :=
  if templatePromptIssued initMode then ans.template else initMode

/-- Resolved git toggle (line 113): the answer when the question fired,
otherwise the flag, otherwise the default. -/
def resolvedGit (argv : InitOptions) (t : ToolAvailability) (ans : PromptAnswers) : Bool :=
  if gitPromptIssued argv t then ans.git
  else argv.git.getD (gitDefault argv t)

/-- Resolved eslint toggle (line 114). -/
def resolvedEslint (argv : InitOptions) (ans : PromptAnswers) : Bool :=
  if eslintPromptIssued argv then ans.eslint
  else argv.eslint.getD (eslintDefault argv)

/-- Resolved prettier toggle (line 115). -/
def resolvedPrettier (argv : InitOptions) (ans : PromptAnswers) : Bool :=
  if prettierPromptIssued argv then ans.prettier
  else argv.prettier.getD (prettierDefault argv)

/-- Resolved vscode toggle (line 116). -/
def resolvedVscode (argv : InitOptions) (ans : PromptAnswers) : Bool :=
  if vscodePromptIssued argv then ans.vscode
  else argv.vscode.getD (vscodeDefault argv)

/-- Resolved package manager (line 117): the answer when the question fired,
otherwise the flag, otherwise NPM. -/
def resolvedPackageManager (argv : InitOptions) (t : ToolAvailability)
    (ans : PromptAnswers) : PackageManager :=
  if packageManagerPromptIssued argv t then ans.packageManager
  else argv.packageManager.getD PackageManager.npm

/-- The fully resolved configuration consumed by the pipeline (lines 111-124). -/
structure ResolvedConfig where
  template : InitMode
  git : Bool
  eslint : Bool
  prettier : Bool
  vscode : Bool
  packageManager : PackageManager
deriving DecidableEq, Repr

/-- Option resolution (lines 111-200) assembled into one record. -/
def resolveConfig (argv : InitOptions) (initMode : InitMode) (t : ToolAvailability)
    (ans : PromptAnswers) : ResolvedConfig :=
  { template := resolvedTemplate initMode ans
    git := resolvedGit argv t ans
    eslint := resolvedEslint argv ans
    prettier := resolvedPrettier argv ans
    vscode := resolvedVscode argv ans
    packageManager := resolvedPackageManager argv t ans }

/-- A filesystem entry as the conflict check observes it through fs-extra:
a regular file, a symbolic link, or a directory with a number of entries. -/
inductive FsEntry
  | file
  | symlink
  | dir (entries : Nat)
deriving DecidableEq, Repr

/-- A filesystem snapshot: each path string maps to an entry or to nothing. -/
def Fs : Type := String → Option FsEntry

/-- fs.pathExists at line 237. -/
def pathExists (fs : Fs) (p : String) : Bool :=
  (fs p).isSome

/-- stat.isFile at line 240. -/
def statIsFile (fs : Fs) (p : String) : Bool :=
  match fs p with
  | Option.some FsEntry.file => true
  | _ => false

/-- stat.isSymbolicLink at line 241. -/
def statIsSymbolicLink (fs : Fs) (p : String) : Bool :=
  match fs p with
  | Option.some FsEntry.symlink => true
  | _ => false

/-- Length of fs.readdir at line 242. -/
def readdirLength (fs : Fs) (p : String) : Nat :=
  match fs p with
  | Option.some (FsEntry.dir n) => n
  | _ => 0

/-- The conflict predicate applied to each candidate path (lines 237-246):
the path exists and is a file, a symbolic link, or a directory with at least
one entry. -/
def isConflict (fs : Fs) (p : String) : Bool :=
  if pathExists fs p then
    statIsFile fs p || statIsSymbolicLink fs p || decide (readdirLength fs p > 0)
  else false

/-- The fixed config-file paths of the paths object (lines 203-217), relative
to the working directory, in object-literal order. -/
def configPathNames : List String :=
  ["package.json", "package-lock.json", ".yarnrc", ".yarnrc.yml", "tsconfig.json",
   ".gitignore", ".gitattributes", ".eslintrc.yml", ".eslintignore",
   ".prettierrc.yml", ".prettierignore", ".vscode/settings.json", ".vscode/extensions.json"]

/-- pathValues (lines 230-233): the fixed config paths followed by every file
name of the selected template directory. -/
def pathValues (templateFiles : List String) : List String :=
  configPathNames ++ templateFiles

/-- existingPaths (lines 235-247): every candidate path that the conflict
predicate reports, in candidate order. -/
def existingPaths (fs : Fs) (templateFiles : List String) : List String :=
  (pathValues templateFiles).filter (fun p => isConflict fs p)

/-- One pipeline step, tagged by its benchmark label (lines 260-431). -/
inductive StepTag
  | packageJsonStep
  | gitStep
  | installDependenciesStep
  | yarn3Step
  | eslintStep
  | prettierStep
  | vscodeStep
  | templateCopyStep
  | compileStep
deriving DecidableEq, Repr

/-- The step sequence the pipeline executes for a resolved configuration, in
source order (lines 260-431): manifest always, git conditional, dependency
install always, yarn3 follow-up for that manager, eslint and prettier and
vscode conditional, template copy and build always. -/
def pipelineSteps (c : ResolvedConfig) : List StepTag :=
  [StepTag.packageJsonStep]
  ++ (if c.git then [StepTag.gitStep] else [])
  ++ [StepTag.installDependenciesStep]
  ++ (if c.packageManager = PackageManager.yarn3 then [StepTag.yarn3Step] else [])
  ++ (if c.eslint then [StepTag.eslintStep] else [])
  ++ (if c.prettier then [StepTag.prettierStep] else [])
  ++ (if c.vscode then [StepTag.vscodeStep] else [])
  ++ [StepTag.templateCopyStep, StepTag.compileStep]

/-- The run outcome: either the conflict error carrying the offending relative
paths (lines 249-256) or the executed step sequence. -/
def runInit (fs : Fs) (templateFiles : List String) (c : ResolvedConfig) :
    Except (List String) (List StepTag) :=
  if (existingPaths fs templateFiles).length > 0 then
    Except.error (existingPaths fs templateFiles)
  else
    Except.ok (pipelineSteps c)

/-- The steps a run actually executed: none when it aborted on conflicts. -/
def executedSteps : Except (List String) (List StepTag) → List StepTag
  | Except.error _ => []
  | Except.ok steps => steps

/-- COMPILER_VERSION at line 83. -/
def COMPILER_VERSION : String := "2.1.0"

/-- RBXTS_SCOPE at line 84. -/
def RBXTS_SCOPE : String := "@rbxts"

/-- The dev-dependency list assembled at lines 296-316, in push order. -/
def devDependencies (eslint prettier : Bool) : List String :=
  ["@rbxts/types", "@rbxts/compiler-types@compiler-" ++ COMPILER_VERSION, "typescript"]
  ++ (if prettier then ["prettier"] else [])
  ++ (if eslint then
        ["eslint", "@typescript-eslint/parser", "eslint-plugin-roblox-ts"]
        ++ (if prettier then ["eslint-plugin-prettier"] else [])
      else [])

/-- The literal command of the final Compiling step (line 430). -/
def compileStepCommand : String := "npm run build"

/-- Every shell command a successful run issues, in execution order: the
manager init command (line 261), git init when enabled (line 284), the
dev-install command with the space-joined dependency list (lines 318-320),
the yarn v3 pinning command for that manager (line 326), the yarn editor-SDK
command inside the vscode step for that manager (line 411), and the final
compile command (line 430). -/
def initCommands (c : ResolvedConfig) : List String :=
  [(packageManagerCommands c.packageManager).init]
  ++ (if c.git then ["git init"] else [])
  ++ [(packageManagerCommands c.packageManager).devInstall ++ " "
        ++ String.intercalate " " (devDependencies c.eslint c.prettier)]
  ++ (if c.packageManager = PackageManager.yarn3 then ["yarn set verion latest"] else [])
  ++ (if c.vscode && c.packageManager = PackageManager.yarn3
        then ["yarn dlx @yarnpkg/sdks vscode"] else [])
  ++ [compileStepCommand]

/-- The scripts object written into package.json (lines 263-266, 273). -/
structure PkgScripts where
  build : String
  watch : String
  prepublishOnly : Option String
deriving DecidableEq, Repr

/-- The package.json fields the manifest step reads and writes (lines 262-278). -/
structure PkgJson where
  name : String
  main : Option String
  types : Option String
  files : Option (List String)
  publishConfigAccess : Option String
  scripts : PkgScripts
deriving DecidableEq, Repr

/-- The manifest rewrite of the Initializing package.json step (lines 262-278):
scripts are replaced with build and watch entries, and in package mode the
name is scoped, library fields are set, and a prepublishOnly script equal to
the selected managers build command is added. -/
def rewritePackageJson (template : InitMode) (pm : PackageManager) (pkg : PkgJson) : PkgJson :=
  let base : PkgJson :=
    { pkg with scripts := { build := "rbxtsc", watch := "rbxtsc -w", prepublishOnly := Option.none } }
  if template = InitMode.package then
    { base with
      name := RBXTS_SCOPE ++ "/" ++ base.name
      main := Option.some "out/init.lua"
      types := Option.some "out/index.d.ts"
      files := Option.some ["out", "!**/*.tsbuildinfo"]
      publishConfigAccess := Option.some "public"
      scripts := { base.scripts with
        prepublishOnly := Option.some (packageManagerCommands pm).build } }
  else base

/-- The settings object the vscode step writes (lines 374-408), with the keys
the step may set. -/
structure VscodeSettings where
  enablePromptUseWorkspaceTsdk : Bool
  typescriptDefaultFormatter : Option String
  typescriptFormatOnSave : Option Bool
  typescriptreactDefaultFormatter : Option String
  typescriptreactFormatOnSave : Option Bool
  eslintRun : Option String
  eslintFormatEnable : Option Bool
deriving DecidableEq, Repr

/-- Construction of the vscode settings object (lines 374-408): the base
object, then the eslint assignment when eslint is enabled, then the prettier
assignment when prettier is enabled and eslint is not. -/
def vscodeSettings (eslint prettier : Bool) : VscodeSettings :=
  let s : VscodeSettings :=
    { enablePromptUseWorkspaceTsdk := true
      typescriptDefaultFormatter := Option.none
      typescriptFormatOnSave := Option.none
      typescriptreactDefaultFormatter := Option.none
      typescriptreactFormatOnSave := Option.none
      eslintRun := Option.none
      eslintFormatEnable := Option.none }
  let s :=
    if eslint then
      { s with
        typescriptDefaultFormatter := Option.some "dbaeumer.vscode-eslint"
        typescriptFormatOnSave := Option.some true
        typescriptreactDefaultFormatter := Option.some "dbaeumer.vscode-eslint"
        typescriptreactFormatOnSave := Option.some true
        eslintRun := Option.some "onType"
        eslintFormatEnable := Option.some true }
    else s
  if prettier && !eslint then
    { s with
      typescriptDefaultFormatter := Option.some "esbenp.prettier-vscode"
      typescriptFormatOnSave := Option.some true
      typescriptreactDefaultFormatter := Option.some "esbenp.prettier-vscode"
      typescriptreactFormatOnSave := Option.some true }
  else s

/-- The recommended-extensions list the vscode step writes (lines 370-412). -/
def vscodeRecommendations (eslint prettier : Bool) (pm : PackageManager) : List String :=
  ["roblox-ts.vscode-roblox-ts"]
  ++ (if eslint then ["dbaeumer.vscode-eslint"] else [])
  ++ (if prettier then ["esbenp.prettier-vscode"] else [])
  ++ (if pm = PackageManager.yarn3 then ["arcanis.vscode-zipfs"] else [])

/-! Concrete example values used by witnesses and counterexamples. -/

/-- An invocation with no flag at all. -/
def argvEmpty : InitOptions :=
  ⟨Option.none, Option.none, Option.none, Option.none, Option.none, Option.none⟩

/-- An invocation with the recommended-defaults flag set. -/
def argvYes : InitOptions :=
  ⟨Option.some true, Option.none, Option.none, Option.none, Option.none, Option.none⟩

/-- An invocation with the recommended-defaults flag explicitly negated. -/
def argvNoYes : InitOptions :=
  ⟨Option.some false, Option.none, Option.none, Option.none, Option.none, Option.none⟩

/-- An invocation with explicit git and eslint flags and nothing else. -/
def argvFlagged : InitOptions :=
  ⟨Option.none, Option.some true, Option.some false, Option.none, Option.none, Option.none⟩

/-- A host on which only pnpm is available. -/
def tOnlyPnpm : ToolAvailability := ⟨false, true, false, false⟩

/-- A host on which only npm is available. -/
def tOnlyNpm : ToolAvailability := ⟨true, false, false, false⟩

/-- A host on which every probed tool is available. -/
def tAllAvailable : ToolAvailability := ⟨true, true, true, true⟩

/-- A fixed answers record: every confirm answered yes, manager answer yarn. -/
def ansEx : PromptAnswers := ⟨InitMode.game, true, true, true, true, PackageManager.yarn⟩

/-- An empty working directory. -/
def fsEmpty : Fs := fun _ => Option.none

/-- A working directory in which every path is a regular file. -/
def fsAllFiles : Fs := fun _ => Option.some FsEntry.file

/-- A working directory in which every path is an empty directory. -/
def fsEmptyDir : Fs := fun _ => Option.some (FsEntry.dir 0)

/-- A resolved configuration choosing pnpm with every toggle on. -/
def cfgPnpm : ResolvedConfig :=
  ⟨InitMode.model, true, true, true, true, PackageManager.pnpm⟩

/-- A concrete manifest as read back after the manager init command. -/
def pkgEx : PkgJson :=
  ⟨"mylib", Option.none, Option.none, Option.none, Option.none,
   ⟨"old-build", "old-watch", Option.none⟩⟩

/-! Claim theorems. -/

/-- Claim C1, counterexample: on a host where only pnpm is available and no
package-manager flag is given, resolution selects npm even though the probe
reported npm absent, and the run still reaches the pipeline (the conflict
check passes on an empty directory and the steps execute). -/
theorem C1_counterexample :
    packageManagerExistance tOnlyPnpm
      (resolveConfig argvEmpty InitMode.model tOnlyPnpm ansEx).packageManager = false
    ∧ runInit fsEmpty []
        (resolveConfig argvEmpty InitMode.model tOnlyPnpm ansEx)
      = Except.ok (pipelineSteps (resolveConfig argvEmpty InitMode.model tOnlyPnpm ansEx)) :=
  ⟨by decide, rfl⟩

/-- Claim C1 (amended): the chosen package manager is guaranteed available
only when it came from the package-manager prompt, whose choice list is
filtered to the available managers; when the prompt is skipped the resolved
manager is the explicit flag or the default npm, either of which may be
absent from the availability snapshot. -/
theorem C1_promptSelectionAvailable (argv : InitOptions) (t : ToolAvailability)
    (ans : PromptAnswers)
    (h1 : packageManagerPromptIssued argv t = true)
    (h2 : ans.packageManager ∈ availablePackageManagerChoices t) :
    packageManagerExistance t (resolvedPackageManager argv t ans) = true := by
  unfold availablePackageManagerChoices at h2
  unfold resolvedPackageManager
  rw [if_pos h1]
  exact (List.mem_filter.mp h2).2

/-- Claim C1, witness for the amended theorem at a host with every manager
available and the prompt answered with yarn. -/
theorem C1_promptSelectionAvailable_witness :
    packageManagerExistance tAllAvailable
      (resolvedPackageManager argvEmpty tAllAvailable ansEx) = true :=
  C1_promptSelectionAvailable argvEmpty tAllAvailable ansEx (by decide) (by decide)

/-- Claim C2, counterexample: exactly one manager (pnpm) is available and no
flag is given; no prompt is issued, yet the resolved manager is npm, not the
single available manager. -/
theorem C2_counterexample :
    packageManagerCount tOnlyPnpm = 1
    ∧ packageManagerExistance tOnlyPnpm PackageManager.pnpm = true
    ∧ argvEmpty.packageManager = Option.none
    ∧ packageManagerPromptIssued argvEmpty tOnlyPnpm = false
    ∧ resolvedPackageManager argvEmpty tOnlyPnpm ansEx = PackageManager.npm
    ∧ resolvedPackageManager argvEmpty tOnlyPnpm ansEx ≠ PackageManager.pnpm := by
  decide

/-- Claim C2 (amended): when at most one manager is available and no
package-manager flag is given, resolution issues no package-manager prompt
and resolves to the compile-time default npm, whichever manager is the
available one. -/
theorem C2_singleManagerNoPromptDefaultNpm (argv : InitOptions) (t : ToolAvailability)
    (ans : PromptAnswers)
    (hflag : argv.packageManager = Option.none)
    (hcount : packageManagerCount t = 1) :
    packageManagerPromptIssued argv t = false
    ∧ resolvedPackageManager argv t ans = PackageManager.npm := by
  have hp : packageManagerPromptIssued argv t = false := by
    simp [packageManagerPromptIssued, hcount]
  exact ⟨hp, by simp [resolvedPackageManager, hp, hflag]⟩

/-- Claim C2, witness for the amended theorem on a host with only npm. -/
theorem C2_singleManagerNoPromptDefaultNpm_witness :
    packageManagerPromptIssued argvEmpty tOnlyNpm = false
    ∧ resolvedPackageManager argvEmpty tOnlyNpm ansEx = PackageManager.npm :=
  C2_singleManagerNoPromptDefaultNpm argvEmpty tOnlyNpm ansEx rfl (by decide)

/-- Claim C3, counterexample: with pnpm selected, the final command of the
run is the fixed string npm run build, which is not the registry build entry
of the chosen manager (pnpm run build). -/
theorem C3_counterexample :
    (initCommands cfgPnpm).getLast? = Option.some "npm run build"
    ∧ (packageManagerCommands cfgPnpm.packageManager).build = "pnpm run build"
    ∧ (initCommands cfgPnpm).getLast?
        ≠ Option.some (packageManagerCommands cfgPnpm.packageManager).build := by
  decide

/-- Claim C3 (amended): the final pipeline step always invokes the fixed
command npm run build, whatever manager was selected; that command equals
the registry build entry of the chosen manager exactly when that manager
is npm. -/
theorem C3_finalCommandFixedNpmBuild (c : ResolvedConfig) :
    (initCommands c).getLast? = Option.some compileStepCommand
    ∧ (compileStepCommand = (packageManagerCommands c.packageManager).build
        ↔ c.packageManager = PackageManager.npm) := by
  constructor
  · rcases c with ⟨tmpl, g, e, p, v, pm⟩
    cases g <;> cases e <;> cases p <;> cases v <;> cases pm <;> rfl
  · cases hpm : c.packageManager <;> decide

/-- Claim C4: when the conflict list is non-empty the run fails with the
error carrying exactly the conflicting relative paths, filtered in order
from the full candidate list, no pipeline step executes, and a path is
reported precisely when it is a candidate and the conflict predicate holds
on it. -/
theorem C4_conflictsAbortPipeline (fs : Fs) (templateFiles : List String)
    (c : ResolvedConfig)
    (h : existingPaths fs templateFiles ≠ []) :
    runInit fs templateFiles c = Except.error (existingPaths fs templateFiles)
    ∧ executedSteps (runInit fs templateFiles c) = []
    ∧ (∀ p, p ∈ existingPaths fs templateFiles
          ↔ p ∈ pathValues templateFiles ∧ isConflict fs p = true) := by
  have hrun : runInit fs templateFiles c = Except.error (existingPaths fs templateFiles) := by
    unfold runInit
    rw [if_pos (List.length_pos.mpr h)]
  refine ⟨hrun, by rw [hrun]; rfl, ?_⟩
  intro p
  unfold existingPaths
  simp [List.mem_filter]

/-- Claim C4, witness: a directory where every candidate is a regular file
aborts with all thirteen fixed config paths listed and runs no step. -/
theorem C4_conflictsAbortPipeline_witness :
    runInit fsAllFiles [] cfgPnpm = Except.error (existingPaths fsAllFiles [])
    ∧ executedSteps (runInit fsAllFiles [] cfgPnpm) = []
    ∧ existingPaths fsAllFiles [] = configPathNames := by
  have h := C4_conflictsAbortPipeline fsAllFiles [] cfgPnpm (by decide)
  exact ⟨h.1, h.2.1, by decide⟩

/-- Claim C5: a candidate path is reported as a conflict exactly when it
exists and is a regular file, a symbolic link, or a directory with at least
one entry; an existing empty directory is never reported. -/
theorem C5_conflictCharacterization (fs : Fs) (p : String) :
    (isConflict fs p = true
      ↔ fs p = Option.some FsEntry.file
        ∨ fs p = Option.some FsEntry.symlink
        ∨ ∃ n, fs p = Option.some (FsEntry.dir n) ∧ 0 < n)
    ∧ (fs p = Option.some (FsEntry.dir 0) → isConflict fs p = false) := by
  constructor
  · unfold isConflict pathExists statIsFile statIsSymbolicLink readdirLength
    rcases h : fs p with _ | e
    · simp
    · cases e <;> simp [h]
  · intro h
    unfold isConflict pathExists statIsFile statIsSymbolicLink readdirLength
    simp [h]

/-- Claim C5, witness: an existing empty directory is not a conflict. -/
theorem C5_conflictCharacterization_witness : isConflict fsEmptyDir ".vscode" = false :=
  (C5_conflictCharacterization fsEmptyDir ".vscode").2 rfl

/-- Claim C6: for each of the four toggles, an explicit flag suppresses the
prompt and fixes the resolved value; when the prompt fires, the interactive
answer is the resolved value; when neither a flag nor a prompt applies, the
destructuring default is the resolved value. -/
theorem C6_precedence (argv : InitOptions) (t : ToolAvailability) (ans : PromptAnswers) :
    ((∀ b, argv.git = Option.some b →
        gitPromptIssued argv t = false ∧ resolvedGit argv t ans = b)
      ∧ (gitPromptIssued argv t = true → resolvedGit argv t ans = ans.git)
      ∧ (argv.git = Option.none → gitPromptIssued argv t = false →
          resolvedGit argv t ans = gitDefault argv t))
    ∧ ((∀ b, argv.eslint = Option.some b →
        eslintPromptIssued argv = false ∧ resolvedEslint argv ans = b)
      ∧ (eslintPromptIssued argv = true → resolvedEslint argv ans = ans.eslint)
      ∧ (argv.eslint = Option.none → eslintPromptIssued argv = false →
          resolvedEslint argv ans = eslintDefault argv))
    ∧ ((∀ b, argv.prettier = Option.some b →
        prettierPromptIssued argv = false ∧ resolvedPrettier argv ans = b)
      ∧ (prettierPromptIssued argv = true → resolvedPrettier argv ans = ans.prettier)
      ∧ (argv.prettier = Option.none → prettierPromptIssued argv = false →
          resolvedPrettier argv ans = prettierDefault argv))
    ∧ ((∀ b, argv.vscode = Option.some b →
        vscodePromptIssued argv = false ∧ resolvedVscode argv ans = b)
      ∧ (vscodePromptIssued argv = true → resolvedVscode argv ans = ans.vscode)
      ∧ (argv.vscode = Option.none → vscodePromptIssued argv = false →
          resolvedVscode argv ans = vscodeDefault argv)) := by
  refine ⟨⟨?_, ?_, ?_⟩, ⟨?_, ?_, ?_⟩, ⟨?_, ?_, ?_⟩, ⟨?_, ?_, ?_⟩⟩
  · intro b hb
    exact ⟨by simp [gitPromptIssued, hb], by simp [resolvedGit, gitPromptIssued, hb]⟩
  · intro h
    simp [resolvedGit, h]
  · intro h1 h2
    simp [resolvedGit, h2, h1]
  · intro b hb
    exact ⟨by simp [eslintPromptIssued, hb], by simp [resolvedEslint, eslintPromptIssued, hb]⟩
  · intro h
    simp [resolvedEslint, h]
  · intro h1 h2
    simp [resolvedEslint, h2, h1]
  · intro b hb
    exact ⟨by simp [prettierPromptIssued, hb],
           by simp [resolvedPrettier, prettierPromptIssued, hb]⟩
  · intro h
    simp [resolvedPrettier, h]
  · intro h1 h2
    simp [resolvedPrettier, h2, h1]
  · intro b hb
    exact ⟨by simp [vscodePromptIssued, hb], by simp [resolvedVscode, vscodePromptIssued, hb]⟩
  · intro h
    simp [resolvedVscode, h]
  · intro h1 h2
    simp [resolvedVscode, h2, h1]

/-- Claim C6, witness: with git flagged on and eslint flagged off, neither
prompt fires and the flags fix the resolved values. -/
theorem C6_precedence_witness :
    gitPromptIssued argvFlagged tAllAvailable = false
    ∧ resolvedGit argvFlagged tAllAvailable ansEx = true
    ∧ eslintPromptIssued argvFlagged = false
    ∧ resolvedEslint argvFlagged ansEx = false := by
  have h := C6_precedence argvFlagged tAllAvailable ansEx
  have hg := h.1.1 true rfl
  have he := h.2.1.1 false rfl
  exact ⟨hg.1, hg.2, he.1, he.2⟩

/-- Claim C7: with the recommended-defaults flag set to true, none of the
four toggle prompts fires, and each toggle without an explicit flag resolves
to true, except git which resolves to the availability of the git tool. -/
theorem C7_recommendedDefaults (argv : InitOptions) (t : ToolAvailability)
    (ans : PromptAnswers) (h : argv.yes = Option.some true) :
    gitPromptIssued argv t = false
    ∧ eslintPromptIssued argv = false
    ∧ prettierPromptIssued argv = false
    ∧ vscodePromptIssued argv = false
    ∧ (argv.git = Option.none → resolvedGit argv t ans = t.gitAvailable)
    ∧ (argv.eslint = Option.none → resolvedEslint argv ans = true)
    ∧ (argv.prettier = Option.none → resolvedPrettier argv ans = true)
    ∧ (argv.vscode = Option.none → resolvedVscode argv ans = true) := by
  refine ⟨?_, ?_, ?_, ?_, ?_, ?_, ?_, ?_⟩
  · simp [gitPromptIssued, h]
  · simp [eslintPromptIssued, h]
  · simp [prettierPromptIssued, h]
  · simp [vscodePromptIssued, h]
  · intro hg
    simp [resolvedGit, gitPromptIssued, gitDefault, jsAnd, h, hg]
  · intro he
    simp [resolvedEslint, eslintPromptIssued, eslintDefault, h, he]
  · intro hp
    simp [resolvedPrettier, prettierPromptIssued, prettierDefault, h, hp]
  · intro hv
    simp [resolvedVscode, vscodePromptIssued, vscodeDefault, h, hv]

/-- Claim C7, witness: a yes invocation on a fully equipped host prompts for
nothing and turns every toggle on. -/
theorem C7_recommendedDefaults_witness :
    eslintPromptIssued argvYes = false
    ∧ resolvedGit argvYes tAllAvailable ansEx = true
    ∧ resolvedEslint argvYes ansEx = true
    ∧ resolvedPrettier argvYes ansEx = true
    ∧ resolvedVscode argvYes ansEx = true := by
  have h := C7_recommendedDefaults argvYes tAllAvailable ansEx rfl
  exact ⟨h.2.1, h.2.2.2.2.1 rfl, h.2.2.2.2.2.1 rfl, h.2.2.2.2.2.2.1 rfl, h.2.2.2.2.2.2.2 rfl⟩

/-- Claim C8: in package mode the rewritten manifest carries the scoped name,
library entry points, restricted files, public publish access, and a
prepublishOnly script equal to the chosen managers build command; in every
other mode those fields are left exactly as read and no prepublishOnly
script exists. -/
theorem C8_packageManifest (template : InitMode) (pm : PackageManager) (pkg : PkgJson) :
    (template = InitMode.package →
      (rewritePackageJson template pm pkg).name = RBXTS_SCOPE ++ "/" ++ pkg.name
      ∧ (rewritePackageJson template pm pkg).main = Option.some "out/init.lua"
      ∧ (rewritePackageJson template pm pkg).types = Option.some "out/index.d.ts"
      ∧ (rewritePackageJson template pm pkg).files = Option.some ["out", "!**/*.tsbuildinfo"]
      ∧ (rewritePackageJson template pm pkg).publishConfigAccess = Option.some "public"
      ∧ (rewritePackageJson template pm pkg).scripts.prepublishOnly
          = Option.some (packageManagerCommands pm).build)
    ∧ (template ≠ InitMode.package →
      (rewritePackageJson template pm pkg).name = pkg.name
      ∧ (rewritePackageJson template pm pkg).main = pkg.main
      ∧ (rewritePackageJson template pm pkg).types = pkg.types
      ∧ (rewritePackageJson template pm pkg).files = pkg.files
      ∧ (rewritePackageJson template pm pkg).publishConfigAccess = pkg.publishConfigAccess
      ∧ (rewritePackageJson template pm pkg).scripts.prepublishOnly = Option.none) := by
  constructor
  · intro h
    subst h
    simp [rewritePackageJson]
  · intro h
    simp [rewritePackageJson, h]

/-- Claim C8, witness: a concrete manifest rewritten in package mode under
pnpm gets the scoped name and the pnpm build command as prepublishOnly;
rewritten in model mode its main stays untouched and no prepublishOnly
script appears. -/
theorem C8_packageManifest_witness :
    (rewritePackageJson InitMode.package PackageManager.pnpm pkgEx).name = "@rbxts/mylib"
    ∧ (rewritePackageJson InitMode.package PackageManager.pnpm pkgEx).scripts.prepublishOnly
        = Option.some "pnpm run build"
    ∧ (rewritePackageJson InitMode.model PackageManager.pnpm pkgEx).main = Option.none
    ∧ (rewritePackageJson InitMode.model PackageManager.pnpm pkgEx).scripts.prepublishOnly
        = Option.none := by
  have h1 := (C8_packageManifest InitMode.package PackageManager.pnpm pkgEx).1 rfl
  have h2 := (C8_packageManifest InitMode.model PackageManager.pnpm pkgEx).2 (by decide)
  refine ⟨?_, ?_, ?_, ?_⟩
  · rw [h1.1]
    rfl
  · rw [h1.2.2.2.2.2]
    rfl
  · rw [h2.2.1]
    rfl
  · exact h2.2.2.2.2.2

/-- Claim C9: in the editor-configuration step, with only prettier enabled
the default formatter of both typescript sections is the prettier extension;
with only eslint, or with both, it is the eslint extension. -/
theorem C9_defaultFormatterSelection :
    (vscodeSettings false true).typescriptDefaultFormatter
        = Option.some "esbenp.prettier-vscode"
    ∧ (vscodeSettings false true).typescriptreactDefaultFormatter
        = Option.some "esbenp.prettier-vscode"
    ∧ (vscodeSettings true false).typescriptDefaultFormatter
        = Option.some "dbaeumer.vscode-eslint"
    ∧ (vscodeSettings true false).typescriptreactDefaultFormatter
        = Option.some "dbaeumer.vscode-eslint"
    ∧ (vscodeSettings true true).typescriptDefaultFormatter
        = Option.some "dbaeumer.vscode-eslint"
    ∧ (vscodeSettings true true).typescriptreactDefaultFormatter
        = Option.some "dbaeumer.vscode-eslint" := by
  decide

/-- Claim C10: with the recommended-defaults flag explicitly present and
false, no toggle prompt and no package-manager prompt fires, and every
toggle without an explicit flag resolves to false: prompt suppression
follows from the flag being present, not from it being true. -/
theorem C10_noYesSuppressesPrompts (argv : InitOptions) (t : ToolAvailability)
    (ans : PromptAnswers) (h : argv.yes = Option.some false) :
    gitPromptIssued argv t = false
    ∧ eslintPromptIssued argv = false
    ∧ prettierPromptIssued argv = false
    ∧ vscodePromptIssued argv = false
    ∧ packageManagerPromptIssued argv t = false
    ∧ (argv.git = Option.none → resolvedGit argv t ans = false)
    ∧ (argv.eslint = Option.none → resolvedEslint argv ans = false)
    ∧ (argv.prettier = Option.none → resolvedPrettier argv ans = false)
    ∧ (argv.vscode = Option.none → resolvedVscode argv ans = false) := by
  refine ⟨?_, ?_, ?_, ?_, ?_, ?_, ?_, ?_, ?_⟩
  · simp [gitPromptIssued, h]
  · simp [eslintPromptIssued, h]
  · simp [prettierPromptIssued, h]
  · simp [vscodePromptIssued, h]
  · simp [packageManagerPromptIssued, h]
  · intro hg
    simp [resolvedGit, gitPromptIssued, gitDefault, jsAnd, h, hg]
  · intro he
    simp [resolvedEslint, eslintPromptIssued, eslintDefault, h, he]
  · intro hp
    simp [resolvedPrettier, prettierPromptIssued, prettierDefault, h, hp]
  · intro hv
    simp [resolvedVscode, vscodePromptIssued, vscodeDefault, h, hv]

/-- Claim C10, witness: an invocation carrying only a false yes flag, on a
host with several managers, prompts for nothing and resolves every toggle
to false. -/
theorem C10_noYesSuppressesPrompts_witness :
    packageManagerPromptIssued argvNoYes tAllAvailable = false
    ∧ resolvedGit argvNoYes tAllAvailable ansEx = false
    ∧ resolvedEslint argvNoYes ansEx = false
    ∧ resolvedPrettier argvNoYes ansEx = false
    ∧ resolvedVscode argvNoYes ansEx = false := by
  have h := C10_noYesSuppressesPrompts argvNoYes tAllAvailable ansEx rfl
  exact ⟨h.2.2.2.2.1, h.2.2.2.2.2.1 rfl, h.2.2.2.2.2.2.1 rfl,
         h.2.2.2.2.2.2.2.1 rfl, h.2.2.2.2.2.2.2.2 rfl⟩
